import Mathlib

/-!
# Verification of the SpotifyMusicExplorer merge/query core

Shallow embedding of `src/utils/data_processing.py`.

A pandas `DataFrame` is modelled as a list of column names together with a
list of rows; a row is an association list from column names to values, a
missing entry standing for a null/NaN cell.  Numeric cells are rationals,
text cells strings.  Python exceptions that escape a function are modelled
with `Except`: `.error` is a raised exception, `.ok` a returned value.
-/

namespace SME

/-- A cell value: either text or a number (pandas object/float cells). -/
inductive Val where
  | str (s : String)
  | num (q : ℚ)
deriving DecidableEq, Repr

/-- A row: association list from column name to (non-null) cell value.
A column name absent from the list is a null/NaN cell of that row. -/
abbrev Row := List (String × Val)

/-- A data frame: its column labels and its rows. -/
structure DF where
  cols : List String
  rows : List Row
deriving DecidableEq, Repr

/-- Python exceptions that can escape the loader / query functions. -/
inductive PyErr where
  /-- Models `FileNotFoundError` (or any read failure) from `pd.read_csv`. -/
  | fileNotFound
  /-- Models `KeyError`, e.g. the explicit `raise KeyError(...)` for missing join
  keys, or indexing a frame with a scalar boolean (`df[False]`). -/
  | keyError
deriving DecidableEq, Repr

/-- The cell of row `r` at column `c` (`none` = null/NaN). -/
def Row.cell (r : Row) (c : String) : Option Val :=
  (r.find? (fun p => p.1 = c)).map (·.2)

/-- Numeric view of a cell: `some q` only for a numeric value. -/
def Row.num (r : Row) (c : String) : Option ℚ :=
  match r.cell c with
  | some (.num q) => some q
  | _ => none

/-- Text view of a cell: `some s` only for a string value. -/
def Row.text (r : Row) (c : String) : Option String :=
  match r.cell c with
  | some (.str s) => some s
  | _ => none

/-- Embeds `c in df.columns`. -/
def DF.hasCol (df : DF) (c : String) : Bool :=
  decide (c ∈ df.cols)

/-- Embeds `df.empty` (true when the frame has no rows). -/
def DF.isEmptyDF (df : DF) : Bool :=
  df.rows.isEmpty

/-- Embeds a single-column `df.rename`: renames the column label and the key
of every matching cell. -/
def DF.renameCol (df : DF) (old new : String) : DF :=
  { cols := df.cols.map (fun c => if c = old then new else c),
    rows := df.rows.map (fun r =>
      r.map (fun p => if p.1 = old then (new, p.2) else p)) }

/-! ## `load_all_data`, lines 13–19: per-source column normalization -/

/-- Lines 13–16 of `load_all_data`: `tracks_df` renames, each applied only
when the source column is present. -/
def normalize_tracks (t : DF) : DF :=
  let t := if t.hasCol "name" then t.renameCol "name" "title" else t
  if t.hasCol "artists" then t.renameCol "artists" "artist" else t

/-- Lines 18–21 of `load_all_data`: `spotify_df` renames. -/
def normalize_spotify (s : DF) : DF :=
  let s := if s.hasCol "track_name" then s.renameCol "track_name" "title" else s
  if s.hasCol "artists" then s.renameCol "artists" "artist" else s

/-! ## `load_all_data`, lines 26–28: year back-fill -/

/-- Embeds `spotify_df["year"] = None`: appends a `year` column whose cells are all
null (any stray `year` cell in a row is overwritten by the null). -/
def addNoneYear (s : DF) : DF :=
  { cols := s.cols ++ ["year"],
    rows := s.rows.map (fun r => r.filter (fun p => decide (p.1 ≠ "year"))) }

/-- Lines 26–28 of `load_all_data`: the secondary source gets a placeholder
`year` column when the primary has one and it does not; nothing happens in
any other case. -/
def backfill_year (t s : DF) : DF × DF :=
  if t.hasCol "year" && !s.hasCol "year" then (t, addNoneYear s) else (t, s)

/-! ## `load_all_data`, lines 30–50: merge -/

/-- The right-hand row as it appears in a merged row: the join-key columns
(`on=` joins only) are dropped, and any remaining column that collides with
a left column is suffixed `_spotify` (the `suffixes=("", "_spotify")`
argument of `pd.merge`). -/
def rename_right (tcols keys : List String) (q : Row) : Row :=
  (q.filter (fun p => decide (p.1 ∉ keys))).map
    (fun p => (if decide (p.1 ∈ tcols) then p.1 ++ "_spotify" else p.1, p.2))

/-- Row block of a left outer join: each left row is paired with every
matching right row, or kept alone (right cells null) when nothing matches. -/
def left_join_rows (t s : DF) (mtch : Row → Row → Bool) (keys : List String) :
    List Row :=
  t.rows.flatMap (fun r =>
    let ms := s.rows.filter (mtch r)
    if ms.isEmpty then [r] else ms.map (fun q => r ++ rename_right t.cols keys q))

/-- Whether a left row `r` and right row `q` are matched by the merge that
`merge_step` performs on `t` and `s`. -/
def merge_match (t s : DF) (r q : Row) : Bool :=
  if t.hasCol "id" && s.hasCol "track_id" then
    decide (q.cell "track_id" = r.cell "id")
  else
    (["title", "artist"].filter (fun c => t.hasCol c && s.hasCol c)).all
      (fun k => decide (r.cell k = q.cell k))

/-- Lines 31–39: `pd.merge(..., left_on="id", right_on="track_id",
how="left", suffixes=("", "_spotify"))`.  Both key columns survive. -/
def id_join (t s : DF) : DF :=
  { cols := t.cols ++ s.cols.map
      (fun c => if decide (c ∈ t.cols) then c ++ "_spotify" else c),
    rows := left_join_rows t s (merge_match t s) [] }

/-- Lines 44–50: `pd.merge(..., on=merge_keys, how="left",
suffixes=("", "_spotify"))`.  Key columns appear once, from the left. -/
def key_join (t s : DF) (keys : List String) : DF :=
  { cols := t.cols ++ (s.cols.filter (fun c => decide (c ∉ keys))).map
      (fun c => if decide (c ∈ t.cols) then c ++ "_spotify" else c),
    rows := left_join_rows t s (merge_match t s) keys }

/-- Line 43: `merge_keys = [col for col in ["title", "artist"] if col in
tracks_df.columns and col in spotify_df.columns]`. -/
def join_keys (t s : DF) : List String :=
  ["title", "artist"].filter (fun c => t.hasCol c && s.hasCol c)

/-- Lines 30–50 of `load_all_data`: join strategy selection.  The
`raise KeyError(...)` of line 44 is the `.error .keyError` case. -/
def merge_step (t s : DF) : Except PyErr DF :=
  if t.hasCol "id" && s.hasCol "track_id" then
    .ok (id_join t s)
  else
    if (join_keys t s).isEmpty then .error .keyError
    else .ok (key_join t s (join_keys t s))

/-! ## `load_all_data`, lines 53–54: post-merge year guarantee -/

/-- Lines 53–54: `if "year" not in merged.columns and "year" in
tracks_df.columns: merged["year"] = tracks_df["year"]` — column assignment
aligns the primary's year cells with the merged rows positionally. -/
def post_year_fix (t merged : DF) : DF :=
  if !merged.hasCol "year" && t.hasCol "year" then
    { cols := merged.cols ++ ["year"],
      rows := merged.rows.mapIdx (fun i r =>
        let scrubbed := r.filter (fun p => decide (p.1 ≠ "year"))
        match (t.rows.get? i).bind (fun tr => tr.cell "year") with
        | some v => scrubbed ++ [("year", v)]
        | none => scrubbed) }
  else merged

/-- Embeds `load_all_data()`.  The two arguments are the outcomes of the two
`pd.read_csv` calls (lines 9–11): `.error` is a raised read exception.
There is no `try/except` in the source, so a read failure short-circuits
the whole function via the `Except` bind. -/
def load_all_data (tr sr : Except PyErr DF) : Except PyErr DF := do
  let tracks ← tr
  let spotify ← sr
  let tracks := normalize_tracks tracks
  let spotify := normalize_spotify spotify
  let p := backfill_year tracks spotify
  let merged ← merge_step p.1 p.2
  pure (post_year_fix p.1 merged)

/-! ## Query layer: shared sorting machinery

`sort_values(..., ascending=False)` orders rows by a numeric key with NaN
placed last; the key of a row is its cell read into `WithBot ℚ`, NaN/null
being `⊥`. -/

/-- A possibly-null numeric cell as an element of the order used by
`sort_values` (null/NaN at the bottom, i.e. last in descending order). -/
def popKey (o : Option ℚ) : WithBot ℚ :=
  match o with
  | none => ⊥
  | some q => (q : WithBot ℚ)

/-- Descending order on a numeric key: `geBy f a b` says `a`'s key is at
least `b`'s, nulls counting as smallest. -/
def geBy {α : Type} (f : α → Option ℚ) (a b : α) : Prop :=
  popKey (f b) ≤ popKey (f a)

instance {α : Type} (f : α → Option ℚ) : DecidableRel (geBy f) :=
  fun a b => inferInstanceAs (Decidable (popKey (f b) ≤ popKey (f a)))

instance {α : Type} (f : α → Option ℚ) : IsTotal α (geBy f) :=
  ⟨fun a b => (le_total (popKey (f b)) (popKey (f a))).imp id id⟩

instance {α : Type} (f : α → Option ℚ) : IsTrans α (geBy f) :=
  ⟨fun _ _ _ hab hbc => le_trans hbc hab⟩

/-- Ascending lexicographic order on `(year, artist)` group keys, as
`groupby(["year", "artist"])` sorts them. -/
def pairLe (p q : ℚ × String) : Prop :=
  toLex p ≤ toLex q

instance : DecidableRel pairLe :=
  fun p q => inferInstanceAs (Decidable (toLex p ≤ toLex q))

instance : IsTotal (ℚ × String) pairLe :=
  ⟨fun p q => (le_total (toLex p) (toLex q)).imp id id⟩

instance : IsTrans (ℚ × String) pairLe :=
  ⟨fun _ _ _ h h' => le_trans h h'⟩

/-- Mean of the non-null values of a column slice; `none` (NaN) when every
value is null, as pandas `mean()` behaves. -/
def meanOpt (l : List (Option ℚ)) : Option ℚ :=
  let vs := l.filterMap id
  if vs.isEmpty then none else some (vs.sum / vs.length)

/-- Embeds `df[df["year"] == year]`: rows of the frame whose `year` cell equals
the given year (NaN compares unequal). -/
def year_rows (df : DF) (year : ℚ) : List Row :=
  df.rows.filter (fun r => decide (r.num "year" = some year))

/-- The popularity cells of the rows of `l` whose `artist` cell is `a`. -/
def artist_pops (l : List Row) (a : String) : List (Option ℚ) :=
  (l.filter (fun r => decide (r.text "artist" = some a))).map
    (fun r => r.num "popularity")

/-! ## `get_top_artists` (lines 59–75) -/

/-- Embeds `get_top_artists(df, year, top_n)`: mean popularity per artist among the
year's rows (artist-NaN rows dropped by `groupby`), sorted descending by the
mean (NaN means last), first `top_n` kept.  Result rows are
`(artist, mean popularity)`. -/
def get_top_artists (df : DF) (year : ℚ) (top_n : ℕ) :
    List (String × Option ℚ) :=
  if !(df.hasCol "year" && df.hasCol "artist") then []
  else
    let yr := year_rows df year
    if !df.hasCol "popularity" then []
    else
      let artists := (yr.filterMap (fun r => r.text "artist")).dedup
      let pairs := artists.map (fun a => (a, meanOpt (artist_pops yr a)))
      (pairs.insertionSort (geBy Prod.snd)).take top_n

/-! ## `get_most_popular_songs` (lines 78–92) -/

/-- Embeds `get_most_popular_songs(df, year, top_n)`: year's rows sorted by
popularity descending, first `top_n`, projected to
`(title, artist, popularity)`. -/
def get_most_popular_songs (df : DF) (year : ℚ) (top_n : ℕ) :
    List (Option Val × Option Val × Option ℚ) :=
  if !(df.hasCol "year" && df.hasCol "title" && df.hasCol "artist") then []
  else
    let yr := year_rows df year
    if !df.hasCol "popularity" then []
    else
      ((yr.insertionSort (geBy (fun r => Row.num r "popularity"))).take top_n).map
        (fun r => (r.cell "title", r.cell "artist", r.num "popularity"))

/-! ## `get_most_popular_song_by_year` (lines 95–105) -/

/-- Embeds `get_most_popular_song_by_year(df, year)`: `none` models the
`(None, None)` sentinel; `some (title, popularity)` is `.iloc[0]` of the
year's rows sorted by popularity descending. -/
def get_most_popular_song_by_year (df : DF) (year : ℚ) :
    Option (Option Val × Option ℚ) :=
  if !(df.hasCol "year" && df.hasCol "title" && df.hasCol "artist") then none
  else
    let yr := year_rows df year
    if !df.hasCol "popularity" || yr.isEmpty then none
    else
      (yr.insertionSort (geBy (fun r => Row.num r "popularity"))).head?.map
        (fun r => (r.cell "title", r.num "popularity"))

/-! ## `compare_artists` (lines 108–117) -/

/-- The rows `df["artist"].isin([a1, a2])` keeps. -/
def artist_rows (df : DF) (a1 a2 : String) : List Row :=
  df.rows.filter (fun r =>
    decide (r.text "artist" = some a1) || decide (r.text "artist" = some a2))

/-- The popularity cells of the `(year, artist)` group of `l`. -/
def group_pops (l : List Row) (y : ℚ) (a : String) : List (Option ℚ) :=
  (l.filter (fun r =>
    decide (r.num "year" = some y) && decide (r.text "artist" = some a))).map
    (fun r => r.num "popularity")

/-- Embeds `compare_artists(df, a1, a2)`: mean popularity per `(year, artist)`
group of the two artists' rows (groups with a NaN key dropped), keys in
ascending order as `groupby` emits them.  Result rows are
`(year, artist, mean popularity)`. -/
def compare_artists (df : DF) (a1 a2 : String) :
    List (ℚ × String × Option ℚ) :=
  if !(df.hasCol "artist" && df.hasCol "year") then []
  else
    let comp := artist_rows df a1 a2
    if !df.hasCol "popularity" then []
    else
      let pairs := (comp.filterMap (fun r =>
        match r.num "year", r.text "artist" with
        | some y, some a => some (y, a)
        | _, _ => none)).dedup
      (pairs.insertionSort pairLe).map
        (fun p => (p.1, p.2, meanOpt (group_pops comp p.1 p.2)))

/-! ## `get_songs_by_vibe` (lines 120–144) -/

/-- A feature comparison `df.get(c, default) < x` per row: true only when
the column exists and the row's cell is a number below `x`.  A missing
column's scalar default and a NaN cell both make the comparison false. -/
def featLt (df : DF) (r : Row) (c : String) (x : ℚ) : Bool :=
  if df.hasCol c then
    match r.num c with
    | some v => decide (v < x)
    | none => false
  else false

/-- A feature comparison `df.get(c, default) > x` per row, as `featLt`. -/
def featGt (df : DF) (r : Row) (c : String) (x : ℚ) : Bool :=
  if df.hasCol c then
    match r.num c with
    | some v => decide (x < v)
    | none => false
  else false

/-- The filter expression of one vibe branch.  When every comparison in the
branch degenerates to a scalar (all its feature columns absent), the Python
expression indexes the frame with a plain `False` and raises
`KeyError: False` — the `.error .keyError` case. -/
def vibe_filter (df : DF) (vibe : String) : Except PyErr (List Row) :=
  if vibe = "chill" then
    if !df.hasCol "energy" && !df.hasCol "acousticness" then .error .keyError
    else .ok (df.rows.filter (fun r =>
      featLt df r "energy" (2/5) && featGt df r "acousticness" (3/5)))
  else if vibe = "energetic" then
    if !df.hasCol "energy" && !df.hasCol "acousticness" then .error .keyError
    else .ok (df.rows.filter (fun r =>
      featGt df r "energy" (4/5) && featLt df r "acousticness" (1/5)))
  else if vibe = "gloomy" then
    if !df.hasCol "valence" && !df.hasCol "energy" then .error .keyError
    else .ok (df.rows.filter (fun r =>
      featLt df r "valence" (3/10) && featLt df r "energy" (2/5)))
  else if vibe = "party" then
    if !df.hasCol "danceability" && !df.hasCol "energy" then .error .keyError
    else .ok (df.rows.filter (fun r =>
      featGt df r "danceability" (4/5) && featGt df r "energy" (7/10)))
  else if vibe = "sporty" then
    if df.hasCol "tempo" then
      .ok (df.rows.filter (fun r =>
        featGt df r "tempo" 120 && featGt df r "energy" (4/5)))
    else
      if !df.hasCol "energy" then .error .keyError
      else .ok (df.rows.filter (fun r => featGt df r "energy" (4/5)))
  else .ok []

/-- Embeds `get_songs_by_vibe(df, vibe, num_songs)`.  The `sel` argument models
`DataFrame.sample`: `sel n l` is the library's random draw of `n` rows from
`l` without replacement (its contract is assumed where needed, never its
draws).  An unrecognized vibe falls into `vibe_filter`'s final `.ok []`
branch, and the empty checks mirror lines 121–122 and 141–142. -/
def get_songs_by_vibe (df : DF) (vibe : String) (num_songs : ℕ)
    (sel : ℕ → List Row → List Row) : Except PyErr (List Row) :=
  if df.isEmptyDF then .ok []
  else
    match vibe_filter df vibe with
    | .error e => .error e
    | .ok filtered =>
      if filtered.isEmpty then .ok []
      else .ok (sel (min num_songs filtered.length) filtered)

/-- The contract of `DataFrame.sample(n=...)` (for `n ≤ len`): it returns
exactly `n` of the rows, drawn without replacement. -/
def samplerOK (sel : ℕ → List Row → List Row) : Prop :=
  ∀ n l, (n ≤ l.length → (sel n l).length = n) ∧ ∀ r ∈ sel n l, r ∈ l

/-! ## Ambient-randomness dispatcher (for the determinism hyperproperty)

The Streamlit layer invokes each query against the process-wide random
state; only `DataFrame.sample` consults it.  `runQuery` makes that state
(`sel`) explicit for every call. -/

/-- One call into the query layer, with its arguments. -/
inductive QueryCall where
  | topArtists (df : DF) (year : ℚ) (top_n : ℕ)
  | popSongs (df : DF) (year : ℚ) (top_n : ℕ)
  | popByYear (df : DF) (year : ℚ)
  | compare (df : DF) (a1 a2 : String)
  | vibe (df : DF) (v : String) (num_songs : ℕ)

/-- The result shapes of the query layer. -/
inductive QueryResult where
  | artists (l : List (String × Option ℚ))
  | songs (l : List (Option Val × Option Val × Option ℚ))
  | pair (p : Option (Option Val × Option ℚ))
  | cmp (l : List (ℚ × String × Option ℚ))
  | vibeRes (r : Except PyErr (List Row))

/-- Dispatch a query call against the ambient random state `sel`. -/
def runQuery (sel : ℕ → List Row → List Row) : QueryCall → QueryResult
  | .topArtists df y n => .artists (get_top_artists df y n)
  | .popSongs df y n => .songs (get_most_popular_songs df y n)
  | .popByYear df y => .pair (get_most_popular_song_by_year df y)
  | .compare df a b => .cmp (compare_artists df a b)
  | .vibe df v n => .vibeRes (get_songs_by_vibe df v n sel)

/-- The claim's join-key availability condition over a (normalized) pair of
sources: the identifier pair, or `title` in both, or `artist` in both. -/
def join_key_available (t s : DF) : Bool :=
  (t.hasCol "id" && s.hasCol "track_id") ||
  (t.hasCol "title" && s.hasCol "title") ||
  (t.hasCol "artist" && s.hasCol "artist")

/-! ## Concrete tables used as test inputs for the theorems below -/

/-- A source with a `title` column and no `year` column. -/
def dfTitleOnly : DF := ⟨["title"], []⟩

/-- A source carrying a `year` column (and `title` as a join key). -/
def dfTitleYear : DF := ⟨["title", "year"], []⟩

/-- A primary source carrying `year` and nothing else. -/
def dfYearTitle : DF := ⟨["year", "title"], []⟩

/-- Primary table of the small merge example. -/
def wTracks : DF :=
  ⟨["title", "artist"], [[("title", .str "A"), ("artist", .str "X")]]⟩

/-- Secondary table of the small merge example. -/
def wSpotify : DF :=
  ⟨["title", "popularity"], [[("title", .str "A"), ("popularity", .num 77)]]⟩

/-- The merge of `wTracks` and `wSpotify` (composite-key branch). -/
def wMerged : DF :=
  ⟨["title", "artist", "popularity"],
   [[("title", .str "A"), ("artist", .str "X"), ("popularity", .num 77)]]⟩

/-- A non-empty table with none of the audio-feature columns. -/
def dfNoFeatures : DF := ⟨["title"], [[("title", .str "x")]]⟩

/-- A small query-ready table: artist X has rows in 2000 and 2001,
artist Y one row in 2000. -/
def dfDemo : DF :=
  ⟨["title", "artist", "year", "popularity"],
   [[("title", .str "A"), ("artist", .str "X"), ("year", .num 2000),
     ("popularity", .num 50)],
    [("title", .str "B"), ("artist", .str "Y"), ("year", .num 2000),
     ("popularity", .num 70)],
    [("title", .str "C"), ("artist", .str "X"), ("year", .num 2000),
     ("popularity", .num 60)],
    [("title", .str "D"), ("artist", .str "X"), ("year", .num 2001),
     ("popularity", .num 10)]]⟩

/-- First row of the two-row `chill` table. -/
def chillRow1 : Row :=
  [("title", .str "x"), ("energy", .num (3/10)), ("acousticness", .num (7/10))]

/-- Second row of the two-row `chill` table. -/
def chillRow2 : Row :=
  [("title", .str "y"), ("energy", .num (1/5)), ("acousticness", .num (4/5))]

/-- A table with two distinct rows both matching the `chill` vibe. -/
def dfChill : DF :=
  ⟨["title", "energy", "acousticness"], [chillRow1, chillRow2]⟩

/-- A deterministic model of `DataFrame.sample`: the first `n` rows. -/
def takeSel : ℕ → List Row → List Row := fun n l => l.take n

/-- Another deterministic model of `DataFrame.sample`: the last `n` rows,
reversed. -/
def revSel : ℕ → List Row → List Row := fun n l => l.reverse.take n

/-! ## Theorems -/

/-- **C1** — The spec says a missing or unreadable input file is surfaced by
`load_all_data` as a distinguishable "no data" result the caller can branch
on.  The code has no `try`/`except` around its two `pd.read_csv` calls, so
the read exception propagates out of `load_all_data` unhandled: the caller
(`app.py` line 25, which checks for `None`/empty instead of catching) never
receives any return value.  This theorem evaluates the embedding at the
failure: whichever read fails, `load_all_data` is the raised exception, not
a returned table. -/
theorem c1_read_failure_propagates_exception (s : Except PyErr DF) (t : DF) :
    load_all_data (.error .fileNotFound) s = .error .fileNotFound ∧
    load_all_data (.ok t) (.error .fileNotFound) = .error .fileNotFound := by
  constructor <;> rfl

/-- **C2 counterexample** — The year back-fill is not symmetric: with a
primary source lacking `year` and a secondary source carrying it, the
primary is left without any placeholder `year` column before the merge. -/
theorem c2_counterexample :
    DF.hasCol dfTitleYear "year" = true ∧
    DF.hasCol dfTitleOnly "year" = false ∧
    (backfill_year dfTitleOnly dfTitleYear).1 = dfTitleOnly ∧
    DF.hasCol (backfill_year dfTitleOnly dfTitleYear).1 "year" = false := by
  decide

/-- **C2 (amended)** — The back-fill is one-directional: when the primary
source has a `year` column and the secondary does not, the secondary gets an
all-null placeholder `year` column before merging; in every other case
(including the symmetric secondary-has-year case) both sources pass through
unchanged. -/
theorem c2_backfill_only_secondary (t s : DF) :
    (DF.hasCol t "year" = true → DF.hasCol s "year" = false →
      backfill_year t s = (t, addNoneYear s) ∧
      DF.hasCol (addNoneYear s) "year" = true ∧
      ∀ r ∈ (addNoneYear s).rows, Row.cell r "year" = none) ∧
    (¬(DF.hasCol t "year" = true ∧ DF.hasCol s "year" = false) →
      backfill_year t s = (t, s)) := by
  constructor
  · intro ht hs
    refine ⟨by simp [backfill_year, ht, hs], ?_, ?_⟩
    · simp [DF.hasCol, addNoneYear]
    · intro r hr
      simp only [addNoneYear, List.mem_map] at hr
      obtain ⟨r₀, -, rfl⟩ := hr
      have hnone : (r₀.filter (fun p => decide (p.1 ≠ "year"))).find?
          (fun p => p.1 = "year") = none := by
        refine List.find?_eq_none.2 ?_
        intro p hp
        have := List.of_mem_filter hp
        simp only [decide_eq_true_eq] at this ⊢
        exact this
      simp [Row.cell, hnone]
  · intro h
    cases ht : DF.hasCol t "year" with
    | false => simp [backfill_year, ht]
    | true =>
      cases hs : DF.hasCol s "year" with
      | false => exact absurd ⟨ht, hs⟩ h
      | true => simp [backfill_year, ht, hs]

/-- **C2 witness** — the amended statement evaluated on concrete tables:
primary with `year`, secondary without (back-fill fires), and the reversed
pair (nothing happens). -/
theorem c2_backfill_only_secondary_witness :
    backfill_year dfYearTitle dfTitleOnly = (dfYearTitle, addNoneYear dfTitleOnly) ∧
    backfill_year dfTitleOnly dfTitleYear = (dfTitleOnly, dfTitleYear) := by
  constructor
  · exact ((c2_backfill_only_secondary dfYearTitle dfTitleOnly).1
      (by decide) (by decide)).1
  · exact (c2_backfill_only_secondary dfTitleOnly dfTitleYear).2 (by decide)

/-- **C5** — The claim (and the spec's design rationale) says a wholly
absent feature column resolves each vibe comparison to "does not qualify",
so the function returns an empty result instead of erroring.  The code
achieves that only while at least one feature column of the vibe exists:
on a non-empty table with none of them, every `df.get(col, default)`
returns its scalar default, the mask reduces to the plain boolean `False`,
and `df[False]` raises `KeyError: False`.  Evaluated here at the failing
input: vibe `"chill"` on a one-row table with neither `energy` nor
`acousticness`. -/
theorem c5_vibe_all_features_absent_raises :
    get_songs_by_vibe dfNoFeatures "chill" 20 takeSel = .error .keyError := by
  rfl

/-- The back-fill never touches the primary source. -/
theorem backfill_fst (t s : DF) : (backfill_year t s).1 = t := by
  unfold backfill_year
  split <;> rfl

/-- The back-fill changes column presence of the secondary source only at
`year`. -/
theorem hasCol_backfill_snd (t s : DF) (c : String) (h : c ≠ "year") :
    DF.hasCol (backfill_year t s).2 c = DF.hasCol s c := by
  unfold backfill_year
  split
  · simp only [DF.hasCol, addNoneYear]
    rw [decide_eq_decide]
    simp [h]
  · rfl

/-- Lemma: `merge_step` raises the missing-join-key `KeyError` exactly when no
join key is available, and otherwise returns a merged table. -/
theorem merge_step_classified (t s : DF) :
    (join_key_available t s = false ∧ merge_step t s = .error .keyError) ∨
    (join_key_available t s = true ∧ ∃ m : DF, merge_step t s = .ok m) := by
  cases hid : (t.hasCol "id" && s.hasCol "track_id") <;>
    cases ht : (t.hasCol "title" && s.hasCol "title") <;>
      cases ha : (t.hasCol "artist" && s.hasCol "artist") <;>
        simp [merge_step, join_keys, join_key_available, hid, ht, ha]

/-- **C3** — After column normalization, `load_all_data` fails with the
missing-join-key `KeyError` (returning no table at all) precisely when
neither the `id`/`track_id` identifier pair nor either composite-key column
(`title`, `artist`) is present in both sources; with any join key available
it returns a merged table. -/
theorem c3_missing_join_key_error_iff (t s : DF) :
    (join_key_available (normalize_tracks t) (normalize_spotify s) = false ∧
      load_all_data (.ok t) (.ok s) = .error .keyError) ∨
    (join_key_available (normalize_tracks t) (normalize_spotify s) = true ∧
      ∃ m : DF, load_all_data (.ok t) (.ok s) = .ok m) := by
  have hfst := backfill_fst (normalize_tracks t) (normalize_spotify s)
  have hjka :
      join_key_available
        (backfill_year (normalize_tracks t) (normalize_spotify s)).1
        (backfill_year (normalize_tracks t) (normalize_spotify s)).2 =
      join_key_available (normalize_tracks t) (normalize_spotify s) := by
    rw [join_key_available, join_key_available, hfst,
      hasCol_backfill_snd _ _ _ (by decide),
      hasCol_backfill_snd _ _ _ (by decide),
      hasCol_backfill_snd _ _ _ (by decide)]
  have hload : load_all_data (.ok t) (.ok s) =
      Except.map
        (post_year_fix (backfill_year (normalize_tracks t) (normalize_spotify s)).1)
        (merge_step
          (backfill_year (normalize_tracks t) (normalize_spotify s)).1
          (backfill_year (normalize_tracks t) (normalize_spotify s)).2) := rfl
  rcases merge_step_classified
      (backfill_year (normalize_tracks t) (normalize_spotify s)).1
      (backfill_year (normalize_tracks t) (normalize_spotify s)).2 with
    ⟨h1, h2⟩ | ⟨h1, ⟨m, hm⟩⟩
  · left
    refine ⟨by rw [← hjka]; exact h1, ?_⟩
    rw [hload, h2]
    rfl
  · right
    refine ⟨by rw [← hjka]; exact h1, ?_⟩
    rw [hload, hm]
    exact ⟨_, rfl⟩

/-- No cell of a renamed right row carries a left column name (given that
no left column itself ends in the `_spotify` suffix). -/
theorem rename_right_not_left (tcols keys : List String) (q : Row)
    (hsuf : ∀ x : String, (x ++ "_spotify") ∉ tcols) :
    ∀ p ∈ rename_right tcols keys q, p.1 ∉ tcols := by
  intro p hp
  simp only [rename_right, List.mem_map] at hp
  obtain ⟨b, hb, rfl⟩ := hp
  by_cases hmem : b.1 ∈ tcols
  · simpa [hmem] using hsuf b.1
  · simp [hmem]

/-- Appending cells whose names all differ from `c` leaves the cell at `c`
unchanged. -/
theorem cell_append_right_irrelevant (r ext : Row) (c : String)
    (h : ∀ p ∈ ext, p.1 ≠ c) :
    Row.cell (r ++ ext) c = Row.cell r c := by
  unfold Row.cell
  rw [List.find?_append]
  cases hf : r.find? (fun p => p.1 = c) with
  | some p => rfl
  | none =>
    have hnone : ext.find? (fun p => p.1 = c) = none := by
      refine List.find?_eq_none.2 ?_
      intro p hp
      simpa using h p hp
    rw [hnone]
    rfl

/-- Core of the left outer join: every left row reappears, extended by the
cells of some matching right row, or exactly as itself when nothing
matches. -/
theorem left_join_rows_survive (t s : DF) (mtch : Row → Row → Bool)
    (keys : List String) (r : Row) (hr : r ∈ t.rows) :
    ∃ ext : Row,
      (r ++ ext) ∈ left_join_rows t s mtch keys ∧
      (ext = [] ∨ ∃ q, ext = rename_right t.cols keys q) ∧
      ((∀ q ∈ s.rows, mtch r q = false) → ext = []) := by
  by_cases hms : (s.rows.filter (mtch r)).isEmpty = true
  · refine ⟨[], ?_, Or.inl rfl, fun _ => rfl⟩
    rw [List.append_nil]
    exact List.mem_flatMap.2 ⟨r, hr, by simp [hms]⟩
  · have hne : s.rows.filter (mtch r) ≠ [] := by
      simpa [List.isEmpty_iff] using hms
    obtain ⟨q, hq⟩ : ∃ q, q ∈ s.rows.filter (mtch r) :=
      ⟨(s.rows.filter (mtch r)).head hne, List.head_mem hne⟩
    refine ⟨rename_right t.cols keys q, ?_, Or.inr ⟨q, rfl⟩, ?_⟩
    · refine List.mem_flatMap.2 ⟨r, hr, ?_⟩
      simp only []
      rw [if_neg hms]
      exact List.mem_map.2 ⟨q, hq, rfl⟩
    · intro hno
      exfalso
      have hmt : mtch r q = true := List.of_mem_filter hq
      rw [hno q (List.mem_of_mem_filter hq)] at hmt
      exact Bool.false_ne_true hmt

/-- **C4** — Left outer join semantics, for both join strategies: whenever
the merge succeeds, every row of the primary (left) source appears in the
merged table — extended only by secondary-source cells under non-primary
column names, so all its own columns keep their values — and a left row
with no match in the secondary source appears exactly as itself (every
secondary column null on it).  The side condition rules out primary column
names that already end in the collision suffix `_spotify`. -/
theorem c4_left_rows_survive (t s m : DF)
    (hok : merge_step t s = .ok m)
    (hsuf : ∀ x : String, (x ++ "_spotify") ∉ t.cols) :
    ∀ r ∈ t.rows, ∃ ext : Row,
      (r ++ ext) ∈ m.rows ∧
      (∀ c ∈ t.cols, Row.cell (r ++ ext) c = Row.cell r c) ∧
      ((∀ q ∈ s.rows, merge_match t s r q = false) → r ++ ext = r) := by
  have hrows : ∃ keys, m.rows = left_join_rows t s (merge_match t s) keys := by
    unfold merge_step at hok
    split at hok
    · cases hok
      exact ⟨[], rfl⟩
    · split at hok
      · cases hok
      · cases hok
        exact ⟨join_keys t s, rfl⟩
  obtain ⟨keys, hkeys⟩ := hrows
  intro r hr
  obtain ⟨ext, hmem, hshape, hnomatch⟩ :=
    left_join_rows_survive t s (merge_match t s) keys r hr
  refine ⟨ext, by rw [hkeys]; exact hmem, ?_,
    fun h => by rw [hnomatch h, List.append_nil]⟩
  intro c hc
  apply cell_append_right_irrelevant
  intro p hp
  rcases hshape with rfl | ⟨q, rfl⟩
  · cases hp
  · intro hpc
    exact absurd hc (hpc ▸ rename_right_not_left t.cols keys q hsuf p hp)

/-- **C4 witness** — the survival property evaluated on the concrete
composite-key merge of `wTracks` and `wSpotify`. -/
theorem c4_left_rows_survive_witness :
    ∃ ext : Row,
      ([("title", Val.str "A"), ("artist", Val.str "X")] ++ ext) ∈ wMerged.rows ∧
      (∀ c ∈ wTracks.cols,
        Row.cell ([("title", Val.str "A"), ("artist", Val.str "X")] ++ ext) c =
          Row.cell [("title", Val.str "A"), ("artist", Val.str "X")] c) ∧
      ((∀ q ∈ wSpotify.rows,
          merge_match wTracks wSpotify
            [("title", Val.str "A"), ("artist", Val.str "X")] q = false) →
        [("title", Val.str "A"), ("artist", Val.str "X")] ++ ext =
          [("title", Val.str "A"), ("artist", Val.str "X")]) := by
  refine c4_left_rows_survive wTracks wSpotify wMerged rfl ?_ _ (by decide)
  intro x hx
  simp only [wTracks, List.mem_cons, List.not_mem_nil, or_false] at hx
  rcases hx with h | h
  · have h1 := congrArg String.length h
    rw [String.length_append, show ("_spotify".length) = 8 from rfl,
      show ("title".length) = 5 from rfl] at h1
    omega
  · have h1 := congrArg String.length h
    rw [String.length_append, show ("_spotify".length) = 8 from rfl,
      show ("artist".length) = 6 from rfl] at h1
    omega

/-- A sorted prefix: sorting then truncating yields a pairwise-ordered
list. -/
theorem pairwise_take_insertionSort {α : Type} (r : α → α → Prop)
    [DecidableRel r] [IsTotal α r] [IsTrans α r] (l : List α) (n : ℕ) :
    ((l.insertionSort r).take n).Pairwise r :=
  List.Pairwise.sublist (List.take_sublist n _) (List.sorted_insertionSort r l)

/-- **C6** — `get_top_artists` returns an empty result whenever `year`,
`artist`, or `popularity` is absent; otherwise at most `top_n` rows, with
pairwise-distinct artists, sorted by descending mean popularity (null means
last), each row carrying the mean popularity of that artist's rows for the
given year. -/
theorem c6_top_artists_shape (df : DF) (year : ℚ) (top_n : ℕ) :
    (¬(DF.hasCol df "year" = true ∧ DF.hasCol df "artist" = true ∧
        DF.hasCol df "popularity" = true) →
      get_top_artists df year top_n = []) ∧
    (get_top_artists df year top_n).length ≤ top_n ∧
    (get_top_artists df year top_n).Pairwise (geBy Prod.snd) ∧
    ((get_top_artists df year top_n).map Prod.fst).Nodup ∧
    (∀ p ∈ get_top_artists df year top_n,
      p.2 = meanOpt (artist_pops (year_rows df year) p.1)) := by
  cases hy : DF.hasCol df "year" with
  | false => simp [get_top_artists, hy]
  | true =>
  cases ha : DF.hasCol df "artist" with
  | false => simp [get_top_artists, hy, ha]
  | true =>
  cases hp : DF.hasCol df "popularity" with
  | false => simp [get_top_artists, hy, ha, hp]
  | true =>
  have hun : get_top_artists df year top_n =
      ((((year_rows df year).filterMap (fun r => r.text "artist")).dedup.map
          (fun a => (a, meanOpt (artist_pops (year_rows df year) a)))).insertionSort
        (geBy Prod.snd)).take top_n := by
    simp [get_top_artists, hy, ha, hp]
  refine ⟨fun h => absurd ⟨rfl, rfl, rfl⟩ h, ?_, ?_, ?_, ?_⟩
  · rw [hun]
    exact List.length_take_le _ _
  · rw [hun]
    exact pairwise_take_insertionSort _ _ _
  · rw [hun, List.map_take]
    refine List.Nodup.sublist (List.take_sublist _ _) ?_
    have h1 := (List.perm_insertionSort (geBy Prod.snd)
      (((year_rows df year).filterMap (fun r => r.text "artist")).dedup.map
        (fun a => (a, meanOpt (artist_pops (year_rows df year) a))))).map Prod.fst
    rw [List.map_map] at h1
    simp only [Function.comp_def] at h1
    rw [List.map_id'] at h1
    exact h1.symm.nodup (List.nodup_dedup _)
  · intro p hp'
    rw [hun] at hp'
    have h2 := List.mem_insertionSort _ |>.1 (List.take_subset _ _ hp')
    obtain ⟨a, -, rfl⟩ := List.mem_map.1 h2
    rfl

/-- **C6 witness** — the missing-column case and the row bound, evaluated
on concrete tables. -/
theorem c6_top_artists_shape_witness :
    get_top_artists dfTitleOnly 2000 10 = [] ∧
    (get_top_artists dfDemo 2000 10).length ≤ 10 :=
  ⟨(c6_top_artists_shape dfTitleOnly 2000 10).1 (by decide),
   (c6_top_artists_shape dfDemo 2000 10).2.1⟩

/-- **C7** — `get_most_popular_songs` returns an empty result when a
required column is absent; otherwise at most `top_n` rows, each the
`(title, artist, popularity)` projection of a row of the requested year,
sorted by popularity descending (so the first returned popularity is at
least every other one, nulls last). -/
theorem c7_most_popular_songs_shape (df : DF) (year : ℚ) (top_n : ℕ) :
    (¬(DF.hasCol df "year" = true ∧ DF.hasCol df "title" = true ∧
        DF.hasCol df "artist" = true ∧ DF.hasCol df "popularity" = true) →
      get_most_popular_songs df year top_n = []) ∧
    (get_most_popular_songs df year top_n).length ≤ top_n ∧
    (get_most_popular_songs df year top_n).Pairwise
      (geBy (fun x => x.2.2)) ∧
    (∀ x ∈ get_most_popular_songs df year top_n,
      ∃ r ∈ year_rows df year,
        x = (Row.cell r "title", Row.cell r "artist", Row.num r "popularity")) := by
  cases hy : DF.hasCol df "year" with
  | false => simp [get_most_popular_songs, hy]
  | true =>
  cases ht : DF.hasCol df "title" with
  | false => simp [get_most_popular_songs, hy, ht]
  | true =>
  cases ha : DF.hasCol df "artist" with
  | false => simp [get_most_popular_songs, hy, ht, ha]
  | true =>
  cases hp : DF.hasCol df "popularity" with
  | false => simp [get_most_popular_songs, hy, ht, ha, hp]
  | true =>
  have hun : get_most_popular_songs df year top_n =
      (((year_rows df year).insertionSort
          (geBy (fun r => Row.num r "popularity"))).take top_n).map
        (fun r => (Row.cell r "title", Row.cell r "artist",
          Row.num r "popularity")) := by
    simp [get_most_popular_songs, hy, ht, ha, hp]
  refine ⟨fun h => absurd ⟨rfl, rfl, rfl, rfl⟩ h, ?_, ?_, ?_⟩
  · rw [hun, List.length_map]
    exact List.length_take_le _ _
  · rw [hun]
    have h := pairwise_take_insertionSort
      (geBy (fun r => Row.num r "popularity")) (year_rows df year) top_n
    exact List.pairwise_map.2 (h.imp (fun hr => hr))
  · intro x hx
    rw [hun] at hx
    obtain ⟨r, hr, rfl⟩ := List.mem_map.1 hx
    exact ⟨r, List.mem_insertionSort _ |>.1 (List.take_subset _ _ hr), rfl⟩

/-- **C7 witness** — the missing-column case and the row bound, evaluated
on concrete tables. -/
theorem c7_most_popular_songs_shape_witness :
    get_most_popular_songs dfTitleOnly 2000 2 = [] ∧
    (get_most_popular_songs dfDemo 2000 2).length ≤ 2 :=
  ⟨(c7_most_popular_songs_shape dfTitleOnly 2000 2).1 (by decide),
   (c7_most_popular_songs_shape dfDemo 2000 2).2.1⟩

/-- **C8** — `get_most_popular_song_by_year` returns the `(None, None)`
sentinel (modelled as `none`) exactly when a required column is absent or
no row matches the year; otherwise it returns the title and popularity of a
row of that year whose popularity is maximal among the year's rows (nulls
at the bottom). -/
theorem c8_most_popular_song_by_year_spec (df : DF) (year : ℚ) :
    (get_most_popular_song_by_year df year = none ↔
      (¬(DF.hasCol df "year" = true ∧ DF.hasCol df "title" = true ∧
          DF.hasCol df "artist" = true ∧ DF.hasCol df "popularity" = true) ∨
        year_rows df year = [])) ∧
    (∀ tl p, get_most_popular_song_by_year df year = some (tl, p) →
      ∃ r ∈ year_rows df year,
        Row.cell r "title" = tl ∧ Row.num r "popularity" = p ∧
        ∀ r' ∈ year_rows df year,
          popKey (Row.num r' "popularity") ≤ popKey p) := by
  cases hy : DF.hasCol df "year" with
  | false =>
    refine ⟨by simp [get_most_popular_song_by_year, hy], ?_⟩
    intro tl p h
    simp [get_most_popular_song_by_year, hy] at h
  | true =>
  cases ht : DF.hasCol df "title" with
  | false =>
    refine ⟨by simp [get_most_popular_song_by_year, hy, ht], ?_⟩
    intro tl p h
    simp [get_most_popular_song_by_year, hy, ht] at h
  | true =>
  cases ha : DF.hasCol df "artist" with
  | false =>
    refine ⟨by simp [get_most_popular_song_by_year, hy, ht, ha], ?_⟩
    intro tl p h
    simp [get_most_popular_song_by_year, hy, ht, ha] at h
  | true =>
  cases hp : DF.hasCol df "popularity" with
  | false =>
    refine ⟨by simp [get_most_popular_song_by_year, hy, ht, ha, hp], ?_⟩
    intro tl p h
    simp [get_most_popular_song_by_year, hy, ht, ha, hp] at h
  | true =>
  have hun : get_most_popular_song_by_year df year =
      (if (year_rows df year).isEmpty = true then none
       else ((year_rows df year).insertionSort
          (geBy (fun r => Row.num r "popularity"))).head?.map
          (fun r => (Row.cell r "title", Row.num r "popularity"))) := by
    simp [get_most_popular_song_by_year, hy, ht, ha, hp]
  cases he : (year_rows df year).isEmpty with
  | true =>
    have hyr : year_rows df year = [] := List.isEmpty_iff.1 he
    refine ⟨by rw [hun, he]; simp [hyr], ?_⟩
    intro tl p h
    rw [hun, he] at h
    simp at h
  | false =>
    have hne : year_rows df year ≠ [] := by
      intro hh
      rw [hh] at he
      cases he
    have hif : (if (year_rows df year).isEmpty = true then
        (none : Option (Option Val × Option ℚ))
       else ((year_rows df year).insertionSort
          (geBy (fun r => Row.num r "popularity"))).head?.map
          (fun r => (Row.cell r "title", Row.num r "popularity"))) =
        ((year_rows df year).insertionSort
          (geBy (fun r => Row.num r "popularity"))).head?.map
          (fun r => (Row.cell r "title", Row.num r "popularity")) :=
      if_neg (by simp [he])
    cases hsort : (year_rows df year).insertionSort
        (geBy (fun r => Row.num r "popularity")) with
    | nil =>
      exfalso
      apply hne
      have hlen := List.length_insertionSort
        (geBy (fun r => Row.num r "popularity")) (year_rows df year)
      rw [hsort] at hlen
      exact List.length_eq_zero.1 hlen.symm
    | cons h0 tl0 =>
      have hres : get_most_popular_song_by_year df year =
          some (Row.cell h0 "title", Row.num h0 "popularity") := by
        rw [hun, hif, hsort]
        rfl
      constructor
      · rw [hres]
        constructor
        · intro hcontra
          cases hcontra
        · intro hor
          rcases hor with h1 | h1
          · exact absurd ⟨rfl, rfl, rfl, rfl⟩ h1
          · exact absurd h1 hne
      · intro tl p heq
        rw [hres] at heq
        simp only [Option.some.injEq, Prod.mk.injEq] at heq
        obtain ⟨rfl, rfl⟩ := heq
        refine ⟨h0, ?_, rfl, rfl, ?_⟩
        · have hh : h0 ∈ (year_rows df year).insertionSort
              (geBy (fun r => Row.num r "popularity")) := by
            rw [hsort]
            exact List.mem_cons_self _ _
          exact (List.mem_insertionSort _).1 hh
        · intro r' hr'
          have hr's : r' ∈ h0 :: tl0 := by
            rw [← hsort]
            exact (List.mem_insertionSort _).2 hr'
          rcases List.mem_cons.1 hr's with rfl | hmem
          · exact le_refl _
          · have hsorted := List.sorted_insertionSort
              (geBy (fun r => Row.num r "popularity")) (year_rows df year)
            rw [hsort] at hsorted
            exact List.rel_of_sorted_cons hsorted r' hmem

/-- **C8 witness** — evaluated on the demo table: 2001 has a unique row
(`D`, popularity 10), and the theorem's consequent is realized there. -/
theorem c8_most_popular_song_by_year_spec_witness :
    ∃ r ∈ year_rows dfDemo 2001,
      Row.cell r "title" = some (Val.str "D") ∧
      Row.num r "popularity" = some 10 ∧
      ∀ r' ∈ year_rows dfDemo 2001,
        popKey (Row.num r' "popularity") ≤ popKey (some 10) :=
  (c8_most_popular_song_by_year_spec dfDemo 2001).2
    (some (Val.str "D")) (some 10) (by rfl)

/-- **C9** — `compare_artists` returns an empty result when `artist`,
`year`, or `popularity` is missing, or when neither artist occurs; every
returned row belongs to one of the two artists; `(year, artist)` group keys
are pairwise distinct; and every returned row is a `(year, artist)` pair
actually present in the data (so no row is emitted for a year with no data
for either artist), carrying that group's mean popularity. -/
theorem c9_compare_artists_shape (df : DF) (a1 a2 : String) :
    (¬(DF.hasCol df "artist" = true ∧ DF.hasCol df "year" = true ∧
        DF.hasCol df "popularity" = true) → compare_artists df a1 a2 = []) ∧
    ((∀ r ∈ df.rows,
        ¬(Row.text r "artist" = some a1 ∨ Row.text r "artist" = some a2)) →
      compare_artists df a1 a2 = []) ∧
    (∀ x ∈ compare_artists df a1 a2, x.2.1 = a1 ∨ x.2.1 = a2) ∧
    ((compare_artists df a1 a2).map (fun x => (x.1, x.2.1))).Nodup ∧
    (∀ x ∈ compare_artists df a1 a2,
      (∃ r ∈ df.rows,
        Row.num r "year" = some x.1 ∧ Row.text r "artist" = some x.2.1) ∧
      x.2.2 = meanOpt (group_pops (artist_rows df a1 a2) x.1 x.2.1)) := by
  cases ha : DF.hasCol df "artist" with
  | false => simp [compare_artists, ha]
  | true =>
  cases hy : DF.hasCol df "year" with
  | false => simp [compare_artists, ha, hy]
  | true =>
  cases hp : DF.hasCol df "popularity" with
  | false => simp [compare_artists, ha, hy, hp]
  | true =>
  have hun : compare_artists df a1 a2 =
      ((((artist_rows df a1 a2).filterMap (fun r =>
          match r.num "year", r.text "artist" with
          | some y, some a => some (y, a)
          | _, _ => none)).dedup).insertionSort pairLe).map
        (fun p => (p.1, p.2,
          meanOpt (group_pops (artist_rows df a1 a2) p.1 p.2))) := by
    simp [compare_artists, ha, hy, hp]
  have hinv : ∀ x ∈ compare_artists df a1 a2,
      ∃ r ∈ df.rows,
        Row.num r "year" = some x.1 ∧ Row.text r "artist" = some x.2.1 ∧
        x.2.2 = meanOpt (group_pops (artist_rows df a1 a2) x.1 x.2.1) ∧
        (Row.text r "artist" = some a1 ∨ Row.text r "artist" = some a2) := by
    intro x hx
    rw [hun] at hx
    obtain ⟨p, hps, rfl⟩ := List.mem_map.1 hx
    have hpd := List.mem_dedup.1 ((List.mem_insertionSort _).1 hps)
    obtain ⟨r, hrc, hfn⟩ := List.mem_filterMap.1 hpd
    obtain ⟨hrdf, hpred⟩ := List.mem_filter.1 hrc
    simp only [Bool.or_eq_true, decide_eq_true_eq] at hpred
    cases hyv : Row.num r "year" with
    | none => rw [hyv] at hfn; cases hfn
    | some y =>
      cases hav : Row.text r "artist" with
      | none => rw [hyv, hav] at hfn; cases hfn
      | some a =>
        rw [hyv, hav] at hfn
        obtain rfl : (y, a) = p := Option.some.inj hfn
        exact ⟨r, hrdf, hyv, hav, rfl, hpred⟩
  refine ⟨fun h => absurd ⟨rfl, rfl, rfl⟩ h, ?_, ?_, ?_, ?_⟩
  · intro hno
    have hcomp : artist_rows df a1 a2 = [] := by
      refine List.filter_eq_nil_iff.2 ?_
      intro r hr hpred
      simp only [Bool.or_eq_true, decide_eq_true_eq] at hpred
      exact hno r hr hpred
    rw [hun, hcomp]
    rfl
  · intro x hx
    obtain ⟨r, -, -, hav, -, hpred⟩ := hinv x hx
    rcases hpred with h1 | h1
    · exact Or.inl (Option.some.inj (hav ▸ h1))
    · exact Or.inr (Option.some.inj (hav ▸ h1))
  · rw [hun, List.map_map]
    have hcomp : ((fun x : ℚ × String × Option ℚ => (x.1, x.2.1)) ∘
        (fun p : ℚ × String => (p.1, p.2,
          meanOpt (group_pops (artist_rows df a1 a2) p.1 p.2)))) =
        fun p => p := by
      funext p
      rfl
    rw [hcomp, List.map_id']
    exact (List.perm_insertionSort pairLe _).symm.nodup (List.nodup_dedup _)
  · intro x hx
    obtain ⟨r, hrdf, hyv, hav, hmean, -⟩ := hinv x hx
    exact ⟨⟨r, hrdf, hyv, hav⟩, hmean⟩

/-- **C9 witness** — the missing-column case, the neither-artist case, and
distinctness of the `(year, artist)` keys, evaluated on concrete tables. -/
theorem c9_compare_artists_shape_witness :
    compare_artists dfTitleOnly "X" "Y" = [] ∧
    compare_artists dfDemo "Q" "R" = [] ∧
    ((compare_artists dfDemo "X" "Y").map (fun x => (x.1, x.2.1))).Nodup :=
  ⟨(c9_compare_artists_shape dfTitleOnly "X" "Y").1 (by decide),
   (c9_compare_artists_shape dfDemo "Q" "R").2.1 (by decide),
   (c9_compare_artists_shape dfDemo "X" "Y").2.2.2.1⟩

/-- **C10** — Determinism of the query layer: the result of every query
function except `get_songs_by_vibe` is independent of the ambient random
state (two runs with identical inputs agree whatever the sampler is), while
`get_songs_by_vibe` genuinely depends on it: two valid models of
`DataFrame.sample` produce different outputs on the same inputs. -/
theorem c10_only_vibe_sampling_randomized :
    (∀ sel1 sel2 df y n,
      runQuery sel1 (.topArtists df y n) = runQuery sel2 (.topArtists df y n)) ∧
    (∀ sel1 sel2 df y n,
      runQuery sel1 (.popSongs df y n) = runQuery sel2 (.popSongs df y n)) ∧
    (∀ sel1 sel2 df y,
      runQuery sel1 (.popByYear df y) = runQuery sel2 (.popByYear df y)) ∧
    (∀ sel1 sel2 df a b,
      runQuery sel1 (.compare df a b) = runQuery sel2 (.compare df a b)) ∧
    (samplerOK takeSel ∧ samplerOK revSel ∧
      get_songs_by_vibe dfChill "chill" 1 takeSel ≠
        get_songs_by_vibe dfChill "chill" 1 revSel) := by
  refine ⟨fun _ _ _ _ _ => rfl, fun _ _ _ _ _ => rfl, fun _ _ _ _ => rfl,
    fun _ _ _ _ _ => rfl, ?_, ?_, ?_⟩
  · intro n l
    refine ⟨fun h => ?_, fun r hr => List.take_subset _ _ hr⟩
    rw [takeSel, List.length_take]
    exact inf_eq_left.2 h
  · intro n l
    constructor
    · intro h
      rw [revSel, List.length_take, List.length_reverse]
      exact inf_eq_left.2 h
    · intro r hr
      exact List.mem_reverse.1 (List.take_subset _ _ hr)
  · have hce : dfChill.hasCol "energy" = true := rfl
    have hca : dfChill.hasCol "acousticness" = true := rfl
    have he1 : featLt dfChill chillRow1 "energy" (2/5) = true := by
      norm_num [featLt, hce, show Row.num chillRow1 "energy" = some (3/10) from rfl]
    have ha1 : featGt dfChill chillRow1 "acousticness" (3/5) = true := by
      norm_num [featGt, hca,
        show Row.num chillRow1 "acousticness" = some (7/10) from rfl]
    have he2 : featLt dfChill chillRow2 "energy" (2/5) = true := by
      norm_num [featLt, hce, show Row.num chillRow2 "energy" = some (1/5) from rfl]
    have ha2 : featGt dfChill chillRow2 "acousticness" (3/5) = true := by
      norm_num [featGt, hca,
        show Row.num chillRow2 "acousticness" = some (4/5) from rfl]
    have hfil : vibe_filter dfChill "chill" = .ok [chillRow1, chillRow2] := by
      rw [vibe_filter, if_pos rfl, if_neg (by decide)]
      rw [show dfChill.rows = [chillRow1, chillRow2] from rfl]
      rw [List.filter_cons, List.filter_cons]
      rw [he1, ha1, he2, ha2]
      rfl
    have h1 : get_songs_by_vibe dfChill "chill" 1 takeSel = .ok [chillRow1] := by
      rw [get_songs_by_vibe, if_neg (by decide), hfil]
      rfl
    have h2 : get_songs_by_vibe dfChill "chill" 1 revSel = .ok [chillRow2] := by
      rw [get_songs_by_vibe, if_neg (by decide), hfil]
      rfl
    rw [h1, h2]
    intro h
    rw [Except.ok.injEq] at h
    injection h with hxy
    exact absurd (congrArg (fun r => Row.cell r "title") hxy) (by decide)

end SME
